import Mathlib

/-!
Verification of the OTP authentication and session-rotation engine of
addis_verify_backend, shallowly embedded in Lean 4.

The embedding follows the Go source:
  - pkg/auth/jwt.go            : Claims, TokenDetails, GenerateTokenPair, VerifyToken
  - sql/query.sql              : UpsertAccount, UpdateAccountStatus, GetAccountByID/Phone
  - internal/account handler   : SendOTP, VerifyOTP, RefreshToken, Logout
  - internal/middlewares       : AuthMiddleware
Times are unix seconds modelled as Int.  JWT tokens are modelled as their
decoded claims plus the two facts the jwt library checks (algorithm family
and signature validity), since the claims here never depend on the byte
encoding of a signed token.  External effects (redis, postgres, the SMS
provider) are modelled by explicit state passing plus explicit outcome
arguments for each fallible call, in the order the Go code makes the calls.
-/

namespace AddisVerify

/-- pkg/constants/messages.go -/
def MsgOTPSent : String := "OTP sent successfully"

def ErrRateLimit : String := "Please wait 60 seconds before requesting a new code"

def ErrInvalidOTP : String := "Invalid or Expired OTP code"

def ErrFailedToSendSMS : String := "Failed to send SMS"

def ErrInvalidOrExpiredToken : String := "Invalid or expired refresh token"

def ErrAccountNotFound : String := "Account not found"

def ErrServiceUnavailable : String := "Service unavailable"

def ErrInternalServerError : String := "Internal server error"

/-- pkg/auth Claims: AccountID (sub), Type ("access"|"refresh"), and the
registered claims the code uses: IssuedAt (a nullable NumericDate in Go,
hence Option), ExpiresAt, Issuer. -/
structure Claims where
  accountID : String
  type : String
  iat : Option Int
  exp : Int
  issuer : String
  deriving Repr, DecidableEq

/-- A presented JWT, decoded: its claims plus the two facts
jwt.ParseWithClaims establishes about the raw string — whether the header
declares an HMAC-family algorithm and whether the signature verifies under
the server key. -/
structure Token where
  claims : Claims
  algHMAC : Bool
  sigValid : Bool
  deriving Repr, DecidableEq

inductive TokenErr where
  | unexpectedAlg
  | invalid
  | expired
  deriving Repr, DecidableEq

/-- pkg/auth/jwt.go VerifyToken: jwt.ParseWithClaims rejects a non-HMAC
algorithm (keyfunc), a bad signature, and an expired token (exp must be
strictly after now); on success it returns the claims. -/
def VerifyToken (now : Int) (t : Token) : Except TokenErr Claims :=
  if ¬ t.algHMAC then .error .unexpectedAlg
  else if ¬ t.sigValid then .error .invalid
  else if t.claims.exp ≤ now then .error .expired
  else .ok t.claims

/-- pkg/auth/jwt.go TokenDetails. -/
structure TokenDetails where
  accessToken : Token
  refreshToken : Token
  atExpires : Int
  rtExpires : Int
  deriving Repr, DecidableEq

/-- 15 minutes, in seconds. -/
def accessWindow : Int := 15 * 60

/-- 7 days, in seconds. -/
def refreshWindow : Int := 7 * 24 * 60 * 60

/-- pkg/auth/jwt.go GenerateTokenPair(accountID, iat).  The Go code reads
time.Now() for the expiries (AtExpires, RtExpires) while stamping both
tokens IssuedAt with the iat argument; `now` is that clock reading. -/
def GenerateTokenPair (accountID : String) (iat : Int) (now : Int) : TokenDetails :=
  let atExp := now + accessWindow
  let rtExp := now + refreshWindow
  { accessToken :=
      { claims :=
          { accountID := accountID, type := "access", iat := some iat
            exp := atExp, issuer := "addis_verify" }
        algHMAC := true, sigValid := true }
    refreshToken :=
      { claims :=
          { accountID := accountID, type := "refresh", iat := some iat
            exp := rtExp, issuer := "addis_verify" }
        algHMAC := true, sigValid := true }
    atExpires := atExp
    rtExpires := rtExp }

/-- A row of the accounts table (the columns the core reads or writes). -/
structure Account where
  id : String
  phone : String
  status : String
  tokenValidFrom : Int
  createdAt : Int
  updatedAt : Int
  deriving Repr, DecidableEq

/-- The accounts table. -/
abbrev DB := List Account

/-- sql/query.sql GetAccountByID. -/
def GetAccountByID (db : DB) (id : String) : Option Account :=
  db.find? (fun r => r.id = id)

/-- sql/query.sql GetAccountByPhone. -/
def GetAccountByPhone (db : DB) (phone : String) : Option Account :=
  db.find? (fun r => r.phone = phone)

/-- The row produced for a phone by the conflicting-update arm of
UpsertAccount: token_valid_from = EXCLUDED.token_valid_from (= NOW()),
updated_at = CURRENT_TIMESTAMP. -/
def upsertRow (phone : String) (now : Int) (r : Account) : Account :=
  if r.phone = phone then { r with tokenValidFrom := now, updatedAt := now } else r

/-- sql/query.sql UpsertAccount: INSERT (phone, token_valid_from=NOW())
ON CONFLICT (phone) DO UPDATE SET token_valid_from, updated_at; RETURNING
the written row.  `newId` models gen_random_uuid for the insert arm and
"active" the status column default. -/
def UpsertAccount (db : DB) (phone : String) (now : Int) (newId : String) : DB × Account :=
  match db.find? (fun r => r.phone = phone) with
  | some r => (db.map (upsertRow phone now), upsertRow phone now r)
  | none =>
      let fresh : Account :=
        { id := newId, phone := phone, status := "active"
          tokenValidFrom := now, createdAt := now, updatedAt := now }
      (db ++ [fresh], fresh)

/-- sql/query.sql UpdateAccountStatus: UPDATE accounts SET status=$2,
updated_at=CURRENT_TIMESTAMP WHERE id=$1. -/
def updStatusRow (id status : String) (now : Int) (r : Account) : Account :=
  if r.id = id then { r with status := status, updatedAt := now } else r

def UpdateAccountStatus (db : DB) (id status : String) (now : Int) : DB :=
  db.map (updStatusRow id status now)

/-- pgtype.UUID.Scan accepts a 36-character hyphenated UUID string; the
format details beyond the length are not load-bearing for any claim. -/
def scanUUID (s : String) : Bool := s.length = 36

/-! ## The redis challenge cache -/

/-- A live cache entry: key, value, remaining time-to-live in seconds. -/
structure CacheEntry where
  key : String
  value : String
  ttl : Int
  deriving Repr, DecidableEq

abbrev CacheState := List CacheEntry

def cacheGetVal (c : CacheState) (key : String) : Option String :=
  (c.find? (fun e => e.key = key)).map (fun e => e.value)

def cacheSet (c : CacheState) (key value : String) (ttl : Int) : CacheState :=
  { key := key, value := value, ttl := ttl } :: c.filter (fun e => e.key ≠ key)

def cacheDel (c : CacheState) (key : String) : CacheState :=
  c.filter (fun e => e.key ≠ key)

/-- A command queued on a redis pipeline (the handler only queues SET). -/
inductive PipeCmd where
  | set (key value : String) (ttl : Int)
  deriving Repr, DecidableEq

def applyCmd (c : CacheState) : PipeCmd → CacheState
  | .set key value ttl => cacheSet c key value ttl

/-- go-redis Pipeline (redis.Pipeliner via Cache.Pipeline): a
non-transactional batch — the commands are sent together but the server
executes each independently, with no MULTI/EXEC wrapper.  `outcomes` gives
each queued command its success; a command that succeeds stays applied even
when a later (or earlier) command fails, and Exec reports failure if any
command failed.  Returns the resulting cache state and whether Exec
returned without error. -/
def pipeExec (c : CacheState) : List PipeCmd → List Bool → CacheState × Bool
  | [], _ => (c, true)
  | cmd :: cmds, outcomes =>
      let ok := outcomes.headD true
      let c1 := if ok then applyCmd c cmd else c
      let (c2, rest) := pipeExec c1 cmds outcomes.tail
      (c2, ok && rest)

/-! ## The account handlers (internal/account handler.go) -/

/-- An HTTP outcome: json.WriteError(status, msg) or json.Write(200, payload). -/
inductive HttpResponse (α : Type) where
  | err (status : Nat) (msg : String)
  | ok (payload : α)
  deriving Repr, DecidableEq

def lockKey (phone : String) : String := "lock:otp:" ++ phone

def otpKey (phone : String) : String := "otp:" ++ phone

/-- SendOTP, from after request decoding and validation (pure I/O framing).
Fallible external calls carry explicit outcomes in call order:
`existsErr` — the redis Exists call on the lock key fails (the Go code only
logs this error, and Result() then yields the zero value 0);
`genRes` — the OTP generator; `pipeOutcomes` — per-command success of the
two pipelined SETs; `sendOk` — the messenger.  Returns the response and the
final cache state. -/
def SendOTP (hashHex : String → String) (pepper phone : String)
    (cache : CacheState) (existsErr : Bool)
    (genRes : Except Unit String) (pipeOutcomes : List Bool) (sendOk : Bool) :
    HttpResponse String × CacheState :=
  -- 3. Rate Limit Check: on a redis error the handler logs and falls through
  -- with exists = 0.
  let nExists : Int :=
    if existsErr then 0
    else if (cacheGetVal cache (lockKey phone)).isSome then 1 else 0
  if nExists > 0 then (.err 429 ErrRateLimit, cache)
  else
    -- 4. Generate OTP
    match genRes with
    | .error _ => (.err 500 ErrInternalServerError, cache)
    | .ok otp =>
        let otpHash := hashHex (phone ++ otp ++ pepper)
        -- 5. Store in Cache (pipeline of two SETs)
        let (cache1, pipeOk) :=
          pipeExec cache
            [ .set (otpKey phone) otpHash (5 * 60)
            , .set (lockKey phone) "locked" 60 ] pipeOutcomes
        if ¬ pipeOk then (.err 500 ErrServiceUnavailable, cache1)
        -- 6. Send the message
        else if ¬ sendOk then (.err 503 ErrFailedToSendSMS, cache1)
        -- 7. Success
        else (.ok MsgOTPSent, cache1)

/-- The effectful calls VerifyOTP makes after the cache read, in order. -/
inductive VerifyEvent where
  | dbUpsert
  | genPair
  | cacheDel
  deriving Repr, DecidableEq, BEq

/-- The authSuccessResponse payload of VerifyOTP and RefreshToken. -/
structure AuthSuccess where
  message : String
  accessToken : Token
  refreshToken : Token
  account : Account
  deriving Repr, DecidableEq

/-- VerifyOTP, from after request decoding and validation.  `getUnavailable`
models an infra failure of the redis Get (in go-redis both a missing key
and an infra failure surface as err != nil from Result(), and the handler
has a single branch for them); `upsertErr` and `genErr` the fallible store
and signing calls; `delOk` the ignored result of the best-effort Del; `now`
the database clock NOW(); `newId` the id for a newly inserted account.
Returns the response, the final cache and database states, and the trace of
effectful calls made after the cache read. -/
def VerifyOTP (hashHex : String → String) (pepper phone otp : String)
    (cache : CacheState) (db : DB) (getUnavailable : Bool)
    (upsertErr genErr : Bool) (delOk : Bool) (now : Int) (newId : String) :
    HttpResponse AuthSuccess × CacheState × DB × List VerifyEvent :=
  -- 2. Retrieve the hashed OTP from redis
  let stored : Except Unit String :=
    if getUnavailable then .error ()
    else match cacheGetVal cache (otpKey phone) with
      | none => .error ()
      | some v => .ok v
  match stored with
  | .error _ => (.err 401 ErrInvalidOTP, cache, db, [])
  | .ok storedHash =>
      -- 3. Verify hash of phone + otp + pepper
      if hashHex (phone ++ otp ++ pepper) ≠ storedHash then
        (.err 401 ErrInvalidOTP, cache, db, [])
      -- 4. Update database (UpsertByPhone advances token_valid_from)
      else if upsertErr then
        (.err 500 ErrInternalServerError, cache, db, [.dbUpsert])
      else
        let (db1, acct) := UpsertAccount db phone now newId
        -- 5. Generate token pair stamped with the row's TokenValidFrom
        if genErr then
          (.err 500 ErrInternalServerError, cache, db1, [.dbUpsert, .genPair])
        else
          let pair := GenerateTokenPair acct.id acct.tokenValidFrom now
          -- 6. Cleanup redis (result discarded)
          let cache1 := if delOk then cacheDel cache (otpKey phone) else cache
          (.ok { message := "OTP verified successfully"
                 accessToken := pair.accessToken
                 refreshToken := pair.refreshToken
                 account := acct },
           cache1, db1, [.dbUpsert, .genPair, .cacheDel])

/-- The store calls RefreshToken makes, in order. -/
inductive RefreshEvent where
  | dbGet
  | dbUpsert
  | genPair
  deriving Repr, DecidableEq

/-- An outcome of the RefreshToken handler.  `panicNilIat` marks the Go
nil-pointer dereference of claims.IssuedAt.Time when a verified refresh
token carries no iat claim (the handler reads it without a nil check). -/
inductive RefreshResult where
  | err (status : Nat) (msg : String)
  | panicNilIat
  | ok (payload : AuthSuccess)
  deriving Repr, DecidableEq

/-- RefreshToken, from after request decoding.  `now` is the call time used
by the jwt expiry check, the database NOW() of the rotation upsert, and the
expiry clock of the new pair; `upsertErr` and `genErr` the fallible store
and signing calls; `newId` as in UpsertAccount.  Returns the outcome, the
final database state, and the trace of store and signing calls. -/
def RefreshToken (db : DB) (tok : Token) (now : Int)
    (upsertErr genErr : Bool) (newId : String) :
    RefreshResult × DB × List RefreshEvent :=
  -- 2. Verify the refresh token (signature and expiry)
  match VerifyToken now tok with
  | .error _ => (.err 401 ErrInvalidOrExpiredToken, db, [])
  | .ok claims =>
      -- 3. Security check: refuse a non-refresh token
      if claims.type ≠ "refresh" then (.err 403 ErrInvalidOrExpiredToken, db, [])
      -- 4. Convert string id to pgtype.UUID
      else if ¬ scanUUID claims.accountID then
        (.err 500 ErrInternalServerError, db, [])
      else
        -- 5. Fetch account and compare iat with TokenValidFrom
        match GetAccountByID db claims.accountID with
        | none => (.err 401 ErrAccountNotFound, db, [.dbGet])
        | some acc =>
            match claims.iat with
            | none => (.panicNilIat, db, [.dbGet])
            | some iat =>
                if iat < acc.tokenValidFrom then
                  (.err 401 ErrInvalidOrExpiredToken, db, [.dbGet])
                -- 6. Rotate: advance token_valid_from to NOW()
                else if upsertErr then
                  (.err 500 ErrInternalServerError, db, [.dbGet, .dbUpsert])
                else
                  let (db1, newAcc) := UpsertAccount db acc.phone now newId
                  -- 7. Generate the new pair
                  if genErr then
                    (.err 500 ErrInternalServerError, db1, [.dbGet, .dbUpsert, .genPair])
                  else
                    let pair := GenerateTokenPair newAcc.id newAcc.tokenValidFrom now
                    (.ok { message := "Tokens rotated successfully"
                           accessToken := pair.accessToken
                           refreshToken := pair.refreshToken
                           account := newAcc },
                     db1, [.dbGet, .dbUpsert, .genPair])

/-- Logout, from after the middleware put the caller id in the context.
Advances token_valid_from with no token issued. -/
def Logout (db : DB) (userID : String) (now : Int)
    (upsertErr : Bool) (newId : String) : HttpResponse String × DB :=
  -- 2. Convert string id to pgtype.UUID
  if ¬ scanUUID userID then (.err 500 ErrInternalServerError, db)
  else
    -- 3. Fetch the account for its phone
    match GetAccountByID db userID with
    | none => (.err 404 ErrAccountNotFound, db)
    | some acc =>
        -- 4. Rotate token_valid_from to NOW()
        if upsertErr then (.err 500 ErrInternalServerError, db)
        else
          let (db1, _) := UpsertAccount db acc.phone now newId
          (.ok "Logged out successfully. All sessions invalidated.", db1)

/-- internal/middlewares AuthMiddleware, from the decoded bearer token on
(extraction of the token string from the Authorization header is plain
string plumbing over the wire format, which the embedding does not carry).
On success the request proceeds with the account id in the context. -/
def AuthMiddleware (db : DB) (tok : Token) (now : Int) :
    HttpResponse String :=
  -- 2. Verify token signature and expiry
  match VerifyToken now tok with
  | .error _ => .err 401 "Session expired or invalid token"
  | .ok claims =>
      if claims.type ≠ "access" then .err 403 "Only access tokens are permitted"
      -- 3. Robust single session check
      else
        match claims.iat with
        | none => .err 401 "Invalid token payload: missing iat"
        | some iat =>
            if ¬ scanUUID claims.accountID then
              .err 401 "Malformed account ID in token"
            else
              match GetAccountByID db claims.accountID with
              | none => .err 401 "User account not found"
              | some acc =>
                  if iat < acc.tokenValidFrom then
                    .err 401 "Session has been invalidated by a newer login"
                  else .ok claims.accountID

/-- A well-formed account id (36-character UUID string) for concrete runs. -/
def wUUID : String := "550e8400-e29b-41d4-a716-446655440000"

/-- A concrete account row for concrete runs. -/
def wAcc : Account :=
  { id := wUUID, phone := "+251911223344", status := "active"
    tokenValidFrom := 5, createdAt := 0, updatedAt := 0 }

/-! ## Helper lemmas -/

theorem upsertRow_id (phone : String) (now : Int) (r : Account) :
    (upsertRow phone now r).id = r.id := by
  unfold upsertRow; split <;> rfl

theorem upsertRow_phone (phone : String) (now : Int) (r : Account) :
    (upsertRow phone now r).phone = r.phone := by
  unfold upsertRow; split <;> rfl

theorem updStatusRow_id (id status : String) (now : Int) (r : Account) :
    (updStatusRow id status now r).id = r.id := by
  unfold updStatusRow; split <;> rfl

theorem updStatusRow_tvf (id status : String) (now : Int) (r : Account) :
    (updStatusRow id status now r).tokenValidFrom = r.tokenValidFrom := by
  unfold updStatusRow; split <;> rfl

theorem GetAccountByID_map_upsertRow (db : DB) (phone : String) (now : Int)
    (aid : String) :
    GetAccountByID (db.map (upsertRow phone now)) aid
      = (GetAccountByID db aid).map (upsertRow phone now) := by
  unfold GetAccountByID
  rw [List.find?_map]
  have hfn : ((fun r : Account => decide (r.id = aid)) ∘ upsertRow phone now)
      = fun r : Account => decide (r.id = aid) := by
    funext r
    simp [upsertRow_id]
  rw [hfn]

theorem GetAccountByID_map_updStatusRow (db : DB) (id status : String)
    (now : Int) (aid : String) :
    GetAccountByID (db.map (updStatusRow id status now)) aid
      = (GetAccountByID db aid).map (updStatusRow id status now) := by
  unfold GetAccountByID
  rw [List.find?_map]
  have hfn : ((fun r : Account => decide (r.id = aid)) ∘ updStatusRow id status now)
      = fun r : Account => decide (r.id = aid) := by
    funext r
    simp [updStatusRow_id]
  rw [hfn]

/-- When the phone is already present, UpsertAccount takes the conflicting
update arm: it maps upsertRow over the table and returns the updated found
row. -/
theorem UpsertAccount_update (db : DB) (phone : String) (now : Int)
    (newId : String) (r : Account)
    (h : db.find? (fun a => a.phone = phone) = some r) :
    UpsertAccount db phone now newId
      = (db.map (upsertRow phone now), upsertRow phone now r) := by
  unfold UpsertAccount
  rw [h]

/-- The row UpsertAccount returns carries the freshly written watermark. -/
theorem UpsertAccount_snd_tvf (db : DB) (phone : String) (now : Int)
    (newId : String) :
    ((UpsertAccount db phone now newId).2).tokenValidFrom = now := by
  unfold UpsertAccount
  cases h : db.find? (fun a => a.phone = phone) with
  | none => rfl
  | some r =>
      have hp : r.phone = phone := by simpa using List.find?_some h
      simp [upsertRow, hp]

theorem upsertRow_tvf_of_phone (phone : String) (now : Int) (r : Account)
    (h : r.phone = phone) : (upsertRow phone now r).tokenValidFrom = now := by
  unfold upsertRow
  rw [if_pos h]

/-- Looking up an account by id after an upsert keyed on that account's own
phone finds the updated row. -/
theorem GetAccountByID_after_upsert (db : DB) (aid : String) (acc : Account)
    (now : Int) (nid : String)
    (hfind : GetAccountByID db aid = some acc) :
    GetAccountByID (UpsertAccount db acc.phone now nid).1 aid
      = some (upsertRow acc.phone now acc) := by
  have hmem : acc ∈ db := List.mem_of_find?_eq_some hfind
  have hsome : (db.find? (fun a => a.phone = acc.phone)).isSome := by
    rw [List.find?_isSome]
    exact ⟨acc, hmem, by simp⟩
  rcases Option.isSome_iff_exists.mp hsome with ⟨r, hr⟩
  rw [UpsertAccount_update db acc.phone now nid r hr]
  simpa [GetAccountByID_map_upsertRow] using congrArg (Option.map (upsertRow acc.phone now)) hfind

/-- The successful run of RefreshToken: given a verifying, non-stale
refresh token whose account exists, the handler upserts the account by its
phone and returns a fresh pair stamped with the row's new watermark. -/
theorem RefreshToken_success (db : DB) (tok : Token) (now : Int)
    (nid : String) (acc : Account) (iat : Int)
    (halg : tok.algHMAC = true) (hsig : tok.sigValid = true)
    (hexp : now < tok.claims.exp) (hkind : tok.claims.type = "refresh")
    (hscan : scanUUID tok.claims.accountID = true)
    (hfind : GetAccountByID db tok.claims.accountID = some acc)
    (hiat : tok.claims.iat = some iat)
    (hge : ¬ iat < acc.tokenValidFrom) :
    RefreshToken db tok now false false nid
      = (.ok { message := "Tokens rotated successfully"
               accessToken :=
                 (GenerateTokenPair ((UpsertAccount db acc.phone now nid).2).id
                   ((UpsertAccount db acc.phone now nid).2).tokenValidFrom now).accessToken
               refreshToken :=
                 (GenerateTokenPair ((UpsertAccount db acc.phone now nid).2).id
                   ((UpsertAccount db acc.phone now nid).2).tokenValidFrom now).refreshToken
               account := (UpsertAccount db acc.phone now nid).2 },
         (UpsertAccount db acc.phone now nid).1, [.dbGet, .dbUpsert, .genPair]) := by
  rcases hup : UpsertAccount db acc.phone now nid with ⟨db1, newAcc⟩
  simp [RefreshToken, VerifyToken, halg, hsig, not_le.mpr hexp, hkind, hscan,
    hfind, hiat, hge, hup]

/-- The successful run of VerifyOTP: when a challenge is stored and the
submitted code hashes to it, the handler upserts the account, generates the
pair stamped with the row's watermark, and then deletes the challenge. -/
theorem VerifyOTP_success (hashHex : String → String)
    (pepper phone otp s : String) (cache : CacheState) (db : DB)
    (delOk : Bool) (now : Int) (newId : String)
    (hget : cacheGetVal cache (otpKey phone) = some s)
    (hmatch : hashHex (phone ++ otp ++ pepper) = s) :
    VerifyOTP hashHex pepper phone otp cache db false false false delOk now newId
      = (.ok { message := "OTP verified successfully"
               accessToken :=
                 (GenerateTokenPair ((UpsertAccount db phone now newId).2).id
                   ((UpsertAccount db phone now newId).2).tokenValidFrom now).accessToken
               refreshToken :=
                 (GenerateTokenPair ((UpsertAccount db phone now newId).2).id
                   ((UpsertAccount db phone now newId).2).tokenValidFrom now).refreshToken
               account := (UpsertAccount db phone now newId).2 },
         (if delOk then cacheDel cache (otpKey phone) else cache),
         (UpsertAccount db phone now newId).1,
         [.dbUpsert, .genPair, .cacheDel]) := by
  rcases hup : UpsertAccount db phone now newId with ⟨db1, acct⟩
  simp [VerifyOTP, hget, hmatch, hup]

/-! ## C8 -/

/-- C8: the claim states that issue_pair gives the access token
expires-at = issued_at + 15 minutes and the refresh token
expires-at = issued_at + 7 days for every issued_at.  Counterexample: with
issued_at 0 and clock reading 100, GenerateTokenPair stamps the expiries
from the clock, not from issued_at, so neither equation holds. -/
theorem c8_expiry_not_from_iat :
    (GenerateTokenPair "a" 0 100).accessToken.claims.exp ≠ 0 + accessWindow ∧
    (GenerateTokenPair "a" 0 100).refreshToken.claims.exp ≠ 0 + refreshWindow := by
  constructor <;> decide

/-- C8 (amended): GenerateTokenPair computes both expiries from the clock
reading at generation time — access expires-at = clock + 15 minutes,
refresh expires-at = clock + 7 days — independent of the issued_at
argument; they equal issued_at + window only when issued_at coincides with
the clock reading. -/
theorem c8_expiry_from_clock (id : String) (iat now : Int) :
    (GenerateTokenPair id iat now).accessToken.claims.exp = now + accessWindow ∧
    (GenerateTokenPair id iat now).refreshToken.claims.exp = now + refreshWindow :=
  ⟨rfl, rfl⟩

/-! ## C5 -/

/-- C5: VerifyOTP returns the identical error value — status 401 with the
single message ErrInvalidOTP — both when no challenge is stored for the
phone and when a challenge is stored but the submitted code hashes to a
different value, so a caller cannot distinguish the two cases. -/
theorem c5_indistinguishable_failures (hashHex : String → String)
    (pepper phone otp : String) (cache : CacheState) (db : DB)
    (ue ge delOk : Bool) (now : Int) (newId : String)
    (h : cacheGetVal cache (otpKey phone) = none ∨
         ∃ s, cacheGetVal cache (otpKey phone) = some s ∧
              hashHex (phone ++ otp ++ pepper) ≠ s) :
    (VerifyOTP hashHex pepper phone otp cache db false ue ge delOk now newId).1
      = .err 401 ErrInvalidOTP := by
  rcases h with h | ⟨s, hs, hne⟩
  · simp [VerifyOTP, h]
  · simp [VerifyOTP, hs, hne]

theorem c5_witness :
    (cacheGetVal [] (otpKey "+251911223344") = none) ∧
    (VerifyOTP (fun s => s) "p" "+251911223344" "123456" [] [] false false
        false true 5 "x").1 = .err 401 ErrInvalidOTP :=
  ⟨rfl, c5_indistinguishable_failures (fun s => s) "p" "+251911223344" "123456"
    [] [] false false true 5 "x" (.inl rfl)⟩

/-! ## C6 -/

/-- C6: a token whose signature and expiry verify but whose kind is not
refresh is rejected by RefreshToken with the distinct 403 status before any
store access: the trace of store calls is empty (no account read, no
upsert, no token generation) and the database is returned unchanged. -/
theorem c6_wrong_kind_no_store_access (db : DB) (tok : Token) (now : Int)
    (ue ge : Bool) (nid : String)
    (halg : tok.algHMAC = true) (hsig : tok.sigValid = true)
    (hexp : now < tok.claims.exp) (hkind : tok.claims.type ≠ "refresh") :
    RefreshToken db tok now ue ge nid
      = (.err 403 ErrInvalidOrExpiredToken, db, []) := by
  simp [RefreshToken, VerifyToken, halg, hsig, not_le.mpr hexp, hkind]

theorem c6_witness :
    ((GenerateTokenPair "550e8400-e29b-41d4-a716-446655440000" 0 0).accessToken.claims.type
        ≠ "refresh") ∧
    RefreshToken []
        (GenerateTokenPair "550e8400-e29b-41d4-a716-446655440000" 0 0).accessToken
        10 false false "x"
      = (.err 403 ErrInvalidOrExpiredToken, [], []) :=
  ⟨by decide,
   c6_wrong_kind_no_store_access []
     (GenerateTokenPair "550e8400-e29b-41d4-a716-446655440000" 0 0).accessToken
     10 false false "x" rfl rfl (by decide) (by decide)⟩

/-! ## C3 -/

/-- C3: the claim states the challenge hash and the issuance lock are
written as one atomic unit, with no reachable cache state holding the hash
without the lock and the state unchanged on write failure.  SendOTP queues
the two SETs on a go-redis Pipeline, which is a non-transactional batch:
when the first SET succeeds and the second fails, Exec reports the failure
(the handler answers 500 Service unavailable) but the challenge hash stays
written while the lock key is absent — a reachable partial write that
removes rate limiting while leaving a live challenge. -/
theorem c3_partial_pipeline_write :
    (SendOTP (fun s => s) "p" "ph" [] false (.ok "123456") [true, false] true).1
        = .err 500 ErrServiceUnavailable ∧
    cacheGetVal
        (SendOTP (fun s => s) "p" "ph" [] false (.ok "123456") [true, false] true).2
        (otpKey "ph") = some "ph123456p" ∧
    cacheGetVal
        (SendOTP (fun s => s) "p" "ph" [] false (.ok "123456") [true, false] true).2
        (lockKey "ph") = none := by
  decide

/-! ## C4 -/

/-- C4: the claim states that a failing cache operation makes the operation
fail Unavailable and never silently bypasses the rate limit.  In SendOTP,
when the Exists call on the lock key fails, the handler only logs the error
and falls through with the zero value 0: here the lock key is present in
the cache, yet the request succeeds and overwrites the challenge — the rate
limit is silently bypassed.  And in VerifyOTP a failing challenge read is
answered 401 Invalid or Expired OTP code, not 503 Service unavailable. -/
theorem c4_cache_error_bypasses_rate_limit :
    (SendOTP (fun s => s) "p" "ph" [{ key := lockKey "ph", value := "locked", ttl := 60 }]
        true (.ok "111111") [true, true] true).1 = .ok MsgOTPSent ∧
    cacheGetVal
        (SendOTP (fun s => s) "p" "ph" [{ key := lockKey "ph", value := "locked", ttl := 60 }]
          true (.ok "111111") [true, true] true).2
        (otpKey "ph") = some "ph111111p" ∧
    (VerifyOTP (fun s => s) "p" "ph" "123456" [] [] true false false true 7 "id").1
        = .err 401 ErrInvalidOTP := by
  decide

/-! ## C9 -/

/-- C9: the claim states that on a successful code match VerifyOTP deletes
the challenge before issuing the token pair.  Counterexample: a concrete
successful run produces the trace upsert, then pair generation, then
challenge deletion — the pair is issued strictly before the deletion, so
the deletion does not precede issuance. -/
theorem c9_counterexample :
    (VerifyOTP (fun s => s) "p" "ph" "123456"
        [{ key := otpKey "ph", value := "ph123456p", ttl := 300 }] [] false
        false false true 7 "id").2.2.2
      = [.dbUpsert, .genPair, .cacheDel] ∧
    List.indexOf VerifyEvent.genPair
        (VerifyOTP (fun s => s) "p" "ph" "123456"
          [{ key := otpKey "ph", value := "ph123456p", ttl := 300 }] [] false
          false false true 7 "id").2.2.2
      < List.indexOf VerifyEvent.cacheDel
        (VerifyOTP (fun s => s) "p" "ph" "123456"
          [{ key := otpKey "ph", value := "ph123456p", ttl := 300 }] [] false
          false false true 7 "id").2.2.2 := by
  decide

/-- C9 (amended): on every successful code match VerifyOTP performs, in
order, the account upsert that advances the watermark (the login commit
point), then the token pair generation, and only then the best-effort
deletion of the challenge from the cache: the pair is issued before the
challenge is deleted. -/
theorem c9_upsert_issue_delete_order (hashHex : String → String)
    (pepper phone otp s : String) (cache : CacheState) (db : DB)
    (delOk : Bool) (now : Int) (newId : String)
    (hget : cacheGetVal cache (otpKey phone) = some s)
    (hmatch : hashHex (phone ++ otp ++ pepper) = s) :
    (VerifyOTP hashHex pepper phone otp cache db false false false delOk now newId).2.2.2
      = [.dbUpsert, .genPair, .cacheDel] := by
  simp [VerifyOTP, hget, hmatch]

theorem c9_witness :
    (cacheGetVal [{ key := otpKey "ph", value := "ph123456p", ttl := 300 }]
        (otpKey "ph") = some "ph123456p") ∧
    (VerifyOTP (fun x => x) "p" "ph" "123456"
        [{ key := otpKey "ph", value := "ph123456p", ttl := 300 }] [] false
        false false true 7 "id").2.2.2 = [.dbUpsert, .genPair, .cacheDel] :=
  ⟨rfl, c9_upsert_issue_delete_order (fun x => x) "p" "ph" "123456" "ph123456p"
    [{ key := otpKey "ph", value := "ph123456p", ttl := 300 }] [] true 7 "id"
    rfl rfl⟩

/-! ## C10 -/

/-- C10: UpdateAccountStatus touches only the status and updated_at columns
of the targeted row: every row keeps its id, phone and token_valid_from,
any row with a different id is untouched entirely, and — since the auth
middleware never reads the status column — the outcome of every token
verification against the store is unchanged, so a status change never
invalidates outstanding tokens. -/
theorem c10_update_status_frame (db : DB) (id status : String) (now : Int)
    (r : Account) (hr : r.id ≠ id) :
    ((UpdateAccountStatus db id status now).map
        (fun a => (a.id, a.phone, a.tokenValidFrom))
      = db.map (fun a => (a.id, a.phone, a.tokenValidFrom))) ∧
    updStatusRow id status now r = r ∧
    ∀ tok tnow, AuthMiddleware (UpdateAccountStatus db id status now) tok tnow
        = AuthMiddleware db tok tnow := by
  refine ⟨?_, ?_, ?_⟩
  · unfold UpdateAccountStatus
    rw [List.map_map]
    have hfn : ((fun a : Account => (a.id, a.phone, a.tokenValidFrom))
          ∘ updStatusRow id status now)
        = fun a : Account => (a.id, a.phone, a.tokenValidFrom) := by
      funext a
      simp only [Function.comp_apply]
      unfold updStatusRow
      split <;> rfl
    rw [hfn]
  · unfold updStatusRow
    rw [if_neg hr]
  · intro tok tnow
    unfold AuthMiddleware
    rcases hv : VerifyToken tnow tok with e | claims
    · simp only [hv]
    · simp only [hv]
      by_cases hty : claims.type = "access"
      case neg => simp [hty]
      case pos =>
        rcases hiat : claims.iat with _ | iat
        · simp [hty, hiat]
        · by_cases hscan : scanUUID claims.accountID = true
          · have hmap := GetAccountByID_map_updStatusRow db id status now
              claims.accountID
            rcases hfind : GetAccountByID db claims.accountID with _ | acc
            · simp [hty, hiat, hscan, UpdateAccountStatus, hmap, hfind]
            · simp [hty, hiat, hscan, UpdateAccountStatus, hmap, hfind,
                updStatusRow_tvf]
          · simp [hty, hiat, hscan]

theorem c10_witness :
    (("b" : String) ≠ "a") ∧
    updStatusRow "a" "suspended" 9
        { id := "b", phone := "+1", status := "active", tokenValidFrom := 3
          createdAt := 0, updatedAt := 0 }
      = { id := "b", phone := "+1", status := "active", tokenValidFrom := 3
          createdAt := 0, updatedAt := 0 } ∧
    (UpdateAccountStatus
        [{ id := "b", phone := "+1", status := "active", tokenValidFrom := 3
           createdAt := 0, updatedAt := 0 }] "a" "suspended" 9).map
        (fun a => (a.id, a.phone, a.tokenValidFrom))
      = [(("b" : String), ("+1" : String), (3 : Int))] := by
  have h := c10_update_status_frame
    [{ id := "b", phone := "+1", status := "active", tokenValidFrom := 3
       createdAt := 0, updatedAt := 0 }] "a" "suspended" 9
    { id := "b", phone := "+1", status := "active", tokenValidFrom := 3
      createdAt := 0, updatedAt := 0 } (by decide)
  exact ⟨by decide, h.2.1, by decide⟩

/-! ## C1 -/

/-- C1: once a session watermark strictly later than a pair's issued-at
stamp t is committed for the account (as Logout and RefreshToken commit via
UpsertAccount), both tokens of the pair are rejected on every later
verification while unexpired: the access token fails the auth middleware
watermark check with 401, and the refresh token is rejected by
RefreshToken with 401 Invalid or expired refresh token, the store left
unchanged. -/
theorem c1_watermark_invalidates_pair (db : DB) (aid : String) (acc : Account)
    (t t0 now1 now2 : Int) (ue ge : Bool) (nid : String)
    (hscan : scanUUID aid = true)
    (hfind : GetAccountByID db aid = some acc)
    (hstale : t < acc.tokenValidFrom)
    (hA : now1 < t0 + accessWindow)
    (hR : now2 < t0 + refreshWindow) :
    AuthMiddleware db (GenerateTokenPair aid t t0).accessToken now1
        = .err 401 "Session has been invalidated by a newer login" ∧
    RefreshToken db (GenerateTokenPair aid t t0).refreshToken now2 ue ge nid
        = (.err 401 ErrInvalidOrExpiredToken, db, [.dbGet]) := by
  constructor
  · simp [AuthMiddleware, VerifyToken, GenerateTokenPair, not_le.mpr hA,
      hscan, hfind, hstale]
  · simp [RefreshToken, VerifyToken, GenerateTokenPair, not_le.mpr hR,
      hscan, hfind, hstale]

theorem c1_witness :
    ((3 : Int) < wAcc.tokenValidFrom) ∧
    AuthMiddleware [wAcc] (GenerateTokenPair wUUID 3 3).accessToken 10
        = .err 401 "Session has been invalidated by a newer login" ∧
    RefreshToken [wAcc] (GenerateTokenPair wUUID 3 3).refreshToken 10
        false false "x"
        = (.err 401 ErrInvalidOrExpiredToken, [wAcc], [.dbGet]) := by
  have h := c1_watermark_invalidates_pair [wAcc] wUUID wAcc 3 3 10 10
    false false "x" (by decide) (by decide) (by decide) (by decide) (by decide)
  exact ⟨by decide, h.1, h.2⟩

/-! ## C2 -/

/-- C2: a given refresh token succeeds in RefreshToken at most once.  A
first, successful rotation commits a watermark equal to its own clock
reading, which (whenever the clock strictly advanced past the token's
issued-at stamp) is strictly later than the presented token's issued-at; a
second presentation of the same, unexpired token is then rejected with 401
Invalid or expired refresh token. -/
theorem c2_refresh_single_use (db : DB) (acc : Account) (aid : String)
    (t t0 now1 now2 : Int) (nid1 nid2 : String)
    (hscan : scanUUID aid = true)
    (hfind : GetAccountByID db aid = some acc)
    (hwm : acc.tokenValidFrom = t)
    (hinc : t < now1)
    (he1 : now1 < t0 + refreshWindow)
    (he2 : now2 < t0 + refreshWindow) :
    (∃ p, (RefreshToken db (GenerateTokenPair aid t t0).refreshToken now1
        false false nid1).1 = .ok p) ∧
    (RefreshToken
        (RefreshToken db (GenerateTokenPair aid t t0).refreshToken now1
          false false nid1).2.1
        (GenerateTokenPair aid t t0).refreshToken now2 false false nid2).1
      = .err 401 ErrInvalidOrExpiredToken := by
  have hsucc := RefreshToken_success db (GenerateTokenPair aid t t0).refreshToken
    now1 nid1 acc t rfl rfl (by simpa [GenerateTokenPair] using he1)
    rfl hscan hfind rfl (by rw [hwm]; exact lt_irrefl t)
  constructor
  · exact ⟨_, by rw [hsucc]⟩
  · have hdb1 : (RefreshToken db (GenerateTokenPair aid t t0).refreshToken now1
        false false nid1).2.1 = (UpsertAccount db acc.phone now1 nid1).1 := by
      rw [hsucc]
    rw [hdb1]
    have hfind1 := GetAccountByID_after_upsert db aid acc now1 nid1 hfind
    have htvf : (upsertRow acc.phone now1 acc).tokenValidFrom = now1 :=
      upsertRow_tvf_of_phone acc.phone now1 acc rfl
    have hlt : t < (upsertRow acc.phone now1 acc).tokenValidFrom := by
      rw [htvf]; exact hinc
    simp [RefreshToken, VerifyToken, GenerateTokenPair,
      (by simpa [GenerateTokenPair] using not_le.mpr he2 : ¬ t0 + refreshWindow ≤ now2),
      hscan, hfind1, hlt]

theorem c2_witness :
    (wAcc.tokenValidFrom < 8) ∧
    (∃ p, (RefreshToken [wAcc] (GenerateTokenPair wUUID 5 5).refreshToken 8
        false false "x").1 = .ok p) ∧
    (RefreshToken
        (RefreshToken [wAcc] (GenerateTokenPair wUUID 5 5).refreshToken 8
          false false "x").2.1
        (GenerateTokenPair wUUID 5 5).refreshToken 9 false false "y").1
      = .err 401 ErrInvalidOrExpiredToken := by
  have h := c2_refresh_single_use [wAcc] wAcc wUUID 5 5 8 9 "x" "y"
    (by decide) (by decide) (by decide) (by decide) (by decide) (by decide)
  exact ⟨by decide, h.1, h.2⟩

/-! ## C7 -/

/-- C7: both tokens of GenerateTokenPair carry an issued-at claim equal to
the iat argument; and in both login paths — VerifyOTP and RefreshToken —
a successful run returns a pair whose two issued-at stamps equal the
session watermark just written to the returned account row, itself the
NOW() of that write. -/
theorem c7_iat_equals_watermark (accountID : String) (iat tnow : Int)
    (hashHex : String → String) (pepper phone otp s : String)
    (cache : CacheState) (db : DB) (delOk : Bool) (now : Int) (newId : String)
    (db2 : DB) (tok : Token) (acc : Account) (iat2 now2 : Int) (nid : String)
    (hget : cacheGetVal cache (otpKey phone) = some s)
    (hmatch : hashHex (phone ++ otp ++ pepper) = s)
    (halg : tok.algHMAC = true) (hsig : tok.sigValid = true)
    (hexp : now2 < tok.claims.exp) (hkind : tok.claims.type = "refresh")
    (hscan : scanUUID tok.claims.accountID = true)
    (hfind : GetAccountByID db2 tok.claims.accountID = some acc)
    (hiat : tok.claims.iat = some iat2)
    (hge : ¬ iat2 < acc.tokenValidFrom) :
    ((GenerateTokenPair accountID iat tnow).accessToken.claims.iat = some iat ∧
     (GenerateTokenPair accountID iat tnow).refreshToken.claims.iat = some iat) ∧
    (∃ p, (VerifyOTP hashHex pepper phone otp cache db false false false
            delOk now newId).1 = .ok p ∧
       p.accessToken.claims.iat = some p.account.tokenValidFrom ∧
       p.refreshToken.claims.iat = some p.account.tokenValidFrom ∧
       p.account.tokenValidFrom = now) ∧
    (∃ p, (RefreshToken db2 tok now2 false false nid).1 = .ok p ∧
       p.accessToken.claims.iat = some p.account.tokenValidFrom ∧
       p.refreshToken.claims.iat = some p.account.tokenValidFrom ∧
       p.account.tokenValidFrom = now2) := by
  refine ⟨⟨rfl, rfl⟩, ?_, ?_⟩
  · rw [VerifyOTP_success hashHex pepper phone otp s cache db delOk now
      newId hget hmatch]
    exact ⟨_, rfl, rfl, rfl, UpsertAccount_snd_tvf db phone now newId⟩
  · rw [RefreshToken_success db2 tok now2 nid acc iat2 halg hsig hexp hkind
      hscan hfind hiat hge]
    exact ⟨_, rfl, rfl, rfl, UpsertAccount_snd_tvf db2 acc.phone now2 nid⟩

theorem c7_witness :
    (cacheGetVal [{ key := otpKey "+251911223344", value := "h", ttl := 300 }]
        (otpKey "+251911223344") = some "h") ∧
    (∃ p, (VerifyOTP (fun _ => "h") "p" "+251911223344" "123456"
            [{ key := otpKey "+251911223344", value := "h", ttl := 300 }] []
            false false false true 7 wUUID).1 = .ok p ∧
       p.accessToken.claims.iat = some p.account.tokenValidFrom ∧
       p.refreshToken.claims.iat = some p.account.tokenValidFrom ∧
       p.account.tokenValidFrom = 7) ∧
    (∃ p, (RefreshToken [wAcc] (GenerateTokenPair wUUID 5 5).refreshToken 9
            false false "y").1 = .ok p ∧
       p.accessToken.claims.iat = some p.account.tokenValidFrom ∧
       p.refreshToken.claims.iat = some p.account.tokenValidFrom ∧
       p.account.tokenValidFrom = 9) := by
  have h := c7_iat_equals_watermark "a" 0 0 (fun _ => "h") "p" "+251911223344"
    "123456" "h"
    [{ key := otpKey "+251911223344", value := "h", ttl := 300 }] [] true 7
    wUUID [wAcc] (GenerateTokenPair wUUID 5 5).refreshToken wAcc 5 9 "y"
    rfl rfl rfl rfl (by decide) rfl (by decide) (by decide) rfl (by decide)
  exact ⟨rfl, h.2.1, h.2.2⟩

end AddisVerify
